import Mathlib

/-!
Verification of the format-resolution and download-orchestration core of
`src/youtube_down.py` (a PyQt5 yt-dlp front end).

The Python source is shallowly embedded:
* a yt-dlp format dict becomes `RawFormat` (absent keys and `None` values
  are both `Option.none`; `dict.get(k, d)` becomes `Option.getD`);
* Python truthiness of a number is "not equal to zero";
* `int(x)` on a rational is truncation toward zero, `//` on naturals is
  `Nat` division;
* the classification loop of `VideoInfoThread.run` becomes `collectFormats`,
  the stable descending `list.sort(key=..., reverse=True)` becomes
  `pySortDesc` (Python's sort is stable, and `reverse=True` keeps elements
  with equal keys in their original order, so any stable sort by the same
  key produces the same list);
* the GUI controller (`YouTubeDownloader`) becomes a state machine
  `step : GuiState → UiEvent → GuiState × List UiOut`; Qt never delivers a
  `clicked` signal for a disabled button, so button-gated handlers are
  guarded on the corresponding enabled flag.
-/

namespace YoutubeDown

/-! ### Python-style numeric and string helpers -/

/-- Rendering of a number in an f-string. Exact for integers (the only case
the label claims evaluate); a non-integral frame rate is rendered as
`num/den`, standing in for Python's decimal float formatting, which no
observable property here depends on. -/
def pyNum (q : ℚ) : String :=
  if q.den = 1 then toString q.num else toString q.num ++ "/" ++ toString q.den

/-- Python `int(q)`: truncation toward zero (`Int` division truncates toward
zero, and `q.den` is positive). -/
def pyTrunc (q : ℚ) : Int := q.num / (q.den : Int)

/-- Python `round(q)`: rounding half to even.  Computed from the numerator
and denominator with floor division, so it evaluates by `decide`. -/
def pyRound (q : ℚ) : Int :=
  let n : Int := q.num
  let d : Int := (q.den : Int)
  let f : Int := Int.fdiv n d
  let r : Int := n - f * d
  if 2 * r < d then f
  else if d < 2 * r then f + 1
  else if f % 2 = 0 then f else f + 1

/-- Two-digit zero-padded rendering, Python's `f"{n:02d}"` for `0 ≤ n < 100`. -/
def pad2 (n : Nat) : String :=
  if n < 10 then "0" ++ toString n else toString n

/-! ### Raw format descriptors and classification (`VideoInfoThread.run`) -/

/-- One yt-dlp format dict, restricted to the keys the core reads.
A key that is absent, or present with value `None`, is `none`. -/
structure RawFormat where
  format_id : String
  vcodec : Option String := none
  acodec : Option String := none
  height : Option Nat := none
  fps : Option ℚ := none
  abr : Option ℚ := none
  ext : Option String := none
  filesize : Option Nat := none
deriving DecidableEq, Repr

/-- `size_str = f" (~{filesize // (1024*1024)}MB)" if filesize else ""`:
the suffix is produced only for a truthy (present and nonzero) byte size. -/
def sizeSuffix (filesize : Option Nat) : String :=
  if filesize.getD 0 ≠ 0 then " (~" ++ toString (filesize.getD 0 / (1024 * 1024)) ++ "MB)" else ""

/-- The `quality_str` built for a combined (video) format:
`f"{height}p"`, then `f"{fps}"` if `fps and fps > 30`, then `f" ({ext}){size_str}"`. -/
def videoLabel (f : RawFormat) : String :=
  toString (f.height.getD 0) ++ "p"
    ++ (if f.fps.getD 0 ≠ 0 ∧ 30 < f.fps.getD 0 then pyNum (f.fps.getD 0) else "")
    ++ " (" ++ f.ext.getD "unknown" ++ ")" ++ sizeSuffix f.filesize

/-- The `quality_str` built for an audio-only format:
`f"{int(abr)}kbps ({ext}){size_str}"`. -/
def audioLabel (f : RawFormat) : String :=
  toString (pyTrunc (f.abr.getD 0)) ++ "kbps (" ++ f.ext.getD "unknown" ++ ")"
    ++ sizeSuffix f.filesize

/-- One element of `video_formats`/`audio_formats`: the tuple
`(quality_str, fmt['format_id'], fmt)`. -/
structure Entry where
  label : String
  format_id : String
  fmt : RawFormat
deriving DecidableEq, Repr

/-- The contribution of one descriptor to `video_formats`:
appended iff `fmt.get('vcodec') != 'none' and fmt.get('acodec') != 'none'`
(a missing codec key yields `None`, which differs from `'none'`) and the
height is truthy. -/
def video_entry (f : RawFormat) : Option Entry :=
  if f.vcodec ≠ some "none" ∧ f.acodec ≠ some "none" then
    if f.height.getD 0 ≠ 0 then some ⟨videoLabel f, f.format_id, f⟩ else none
  else none

/-- The contribution of one descriptor to `audio_formats`: the `elif` branch,
reached only when the video condition fails, requires
`fmt.get('acodec') != 'none' and fmt.get('vcodec') == 'none'` and a truthy
bitrate. -/
def audio_entry (f : RawFormat) : Option Entry :=
  if f.vcodec ≠ some "none" ∧ f.acodec ≠ some "none" then none
  else if f.acodec ≠ some "none" ∧ f.vcodec = some "none" then
    if f.abr.getD 0 ≠ 0 then some ⟨audioLabel f, f.format_id, f⟩ else none
  else none

/-- One iteration of the `for fmt in formats` loop, appending to the two
accumulated lists. -/
def formatStep (acc : List Entry × List Entry) (f : RawFormat) : List Entry × List Entry :=
  if f.vcodec ≠ some "none" ∧ f.acodec ≠ some "none" then
    if f.height.getD 0 ≠ 0 then (acc.1 ++ [⟨videoLabel f, f.format_id, f⟩], acc.2) else acc
  else if f.acodec ≠ some "none" ∧ f.vcodec = some "none" then
    if f.abr.getD 0 ≠ 0 then (acc.1, acc.2 ++ [⟨audioLabel f, f.format_id, f⟩]) else acc
  else acc

/-- The whole classification loop: both lists grown left to right. -/
def collectFormats (fs : List RawFormat) : List Entry × List Entry :=
  fs.foldl formatStep ([], [])

/-- Sort key of the video list: `x[2].get('height', 0)`. -/
def videoKey (e : Entry) : ℚ := (e.fmt.height.getD 0 : ℚ)

/-- Sort key of the audio list: `x[2].get('abr', 0)`. -/
def audioKey (e : Entry) : ℚ := e.fmt.abr.getD 0

/-- Python's `list.sort(key=key, reverse=True)`: a stable sort placing larger
keys first; elements with equal keys keep their original relative order. -/
def pySortDesc (key : Entry → ℚ) (l : List Entry) : List Entry :=
  l.mergeSort (fun a b => decide (key b ≤ key a))

/-- `f"{duration // 60}:{duration % 60:02d}" if duration else "Unknown"`. -/
def duration_label (d : Option Nat) : String :=
  if d.getD 0 ≠ 0 then toString (d.getD 0 / 60) ++ ":" ++ pad2 (d.getD 0 % 60) else "Unknown"

/-- The fields of the probe result (`info`) that `VideoInfoThread.run` reads. -/
structure RawInfo where
  title : Option String := none
  duration : Option Nat := none
  formats : List RawFormat := []
deriving DecidableEq, Repr

/-- The `result` dict emitted by `VideoInfoThread.run` on success. -/
structure VideoInfoResult where
  title : String
  duration : String
  video_formats : List Entry
  audio_formats : List Entry
deriving DecidableEq, Repr

/-- `VideoInfoThread.run`, success path: classify every descriptor, sort the
video list by height descending and the audio list by bitrate descending
(both stable), and render title and duration. -/
def processInfo (info : RawInfo) : VideoInfoResult :=
  { title := info.title.getD "Unknown Title"
    duration := duration_label info.duration
    video_formats := pySortDesc videoKey (collectFormats info.formats).1
    audio_formats := pySortDesc audioKey (collectFormats info.formats).2 }

/-! ### Download options (`YouTubeDownloader.start_download`) -/

/-- One yt-dlp post-processor dict. -/
structure PostProcessor where
  key : String
  preferredcodec : String
  preferredquality : String
deriving DecidableEq, Repr

/-- The yt-dlp option keys `start_download` sets beyond the base options. -/
structure YdlOpts where
  outtmpl : String
  format : String
  merge_output_format : Option String := none
  postprocessors : List PostProcessor := []
deriving DecidableEq, Repr

/-- `os.path.join` for the two-argument use in `start_download`. -/
def path_join (a b : String) : String :=
  if a = "" then b
  else if a.data.getLastD ' ' = '/' then a ++ b
  else a ++ "/" ++ b

/-- The two download modes offered by the radio buttons. -/
inductive DownloadMode where
  | muxed (video_format_id audio_format_id : String)
  | audioOnly (audio_format_id : String)
deriving DecidableEq, Repr

/-- The options `start_download` passes to the collaborator:
video+audio gets `f"{v}+{a}/best"` and `merge_output_format = 'mp4'`;
audio-only gets the id verbatim plus one `FFmpegExtractAudio` post-processor
with codec `mp3` and quality `'192'`. -/
def build_ydl_opts (save_path : String) (mode : DownloadMode) : YdlOpts :=
  match mode with
  | .muxed v a =>
      { outtmpl := path_join save_path "%(title)s.%(ext)s"
        format := v ++ "+" ++ a ++ "/best"
        merge_output_format := some "mp4" }
  | .audioOnly a =>
      { outtmpl := path_join save_path "%(title)s.%(ext)s"
        format := a
        postprocessors := [⟨"FFmpegExtractAudio", "mp3", "192"⟩] }

/-! ### Download thread (`DownloadThread.progress_hook` / `DownloadThread.run`) -/

/-- `os.path.basename`: everything after the last `/`. -/
def basename (s : String) : String :=
  ⟨(s.data.reverse.takeWhile (fun c => c ≠ '/')).reverse⟩

/-- The fields of a yt-dlp progress callback dict that the hook reads. -/
structure HookInfo where
  status : String
  percent_str : Option String := none
  speed_str : Option String := none
  filename : String := ""
deriving DecidableEq, Repr

/-- `DownloadThread.progress_hook`: the list of progress signals emitted for
one callback. -/
def progress_hook (d : HookInfo) : List String :=
  if d.status = "downloading" then
    ["Downloading... " ++ d.percent_str.getD "N/A" ++ " at " ++ d.speed_str.getD "N/A"]
  else if d.status = "finished" then
    ["Download finished: " ++ basename d.filename]
  else []

/-- `DownloadThread.run`: given the outcome of `ydl.download`, the pair of
(`finished` signal payloads, `error` signal payloads). -/
def download_run (outcome : Except String Unit) : List String × List String :=
  match outcome with
  | .ok _ => (["Download completed successfully!"], [])
  | .error e => ([], ["Download failed: " ++ e])

/-! ### URL validation (`YouTubeDownloader.validate_url`)

Implemented over `List Char` so everything reduces in the kernel.
`re.match` anchors at the start only, so each pattern accepts any string
whose head matches: a required `http://`/`https://` scheme, an optional
`www.`, a fixed host-and-path literal, and at least one `[\w-]` character
(`\w` modeled as ASCII alphanumeric or underscore). -/

/-- A character of the class `[\w-]`. -/
def wordChar (c : Char) : Bool := c.isAlphanum || c = '_' || c = '-'

/-- Remove a literal pattern from the head of a string, if present. -/
def stripPre : List Char → List Char → Option (List Char)
  | [], s => some s
  | _ :: _, [] => none
  | p :: ps, c :: cs => if p = c then stripPre ps cs else none

/-- Does the string start with at least one `[\w-]` character? -/
def headWord : List Char → Bool
  | c :: _ => wordChar c
  | [] => false

/-- One URL pattern: the fixed body followed by at least one id character. -/
def matchPat (body : String) (s : List Char) : Bool :=
  match stripPre body.data s with
  | some rest => headWord rest
  | none => false

/-- `YouTubeDownloader.validate_url`: the four accepted YouTube URL shapes. -/
def validate_url (url : String) : Bool :=
  match (stripPre "https://".data url.data).orElse (fun _ => stripPre "http://".data url.data) with
  | none => false
  | some rest =>
    let r := match stripPre "www.".data rest with
      | some t => t
      | none => rest
    matchPat "youtube.com/watch?v=" r || matchPat "youtu.be/" r
      || matchPat "youtube.com/embed/" r || matchPat "youtube.com/v/" r

/-- Python `str.strip()` for the whitespace characters it removes. -/
def pyIsSpace (c : Char) : Bool :=
  c = ' ' || c = '\t' || c = '\n' || c = '\x0d' || c = '\x0b' || c = '\x0c'

/-- Python `str.strip()`. -/
def pyStrip (s : String) : String :=
  ⟨((s.data.dropWhile pyIsSpace).reverse.dropWhile pyIsSpace).reverse⟩

/-! ### The session controller (`YouTubeDownloader`) as a state machine

The state gathers the instance fields and the widget state that the
handlers read: the text fields, whether the chosen directory currently
exists (`os.path.exists`), the two stored format lists, the current rows of
the two `QListWidget`s (−1 = no selection; the widgets always hold exactly
the labels of the stored lists, so their item count is the stored list
length), the radio-button choice, the enabled flags of the two buttons, and
whether a fetch or download thread is running. -/

structure GuiState where
  urlText : String
  saveText : String
  dirExists : Bool
  video_formats : List Entry
  audio_formats : List Entry
  videoRow : Int
  audioRow : Int
  radioVideo : Bool
  fetchEnabled : Bool
  downloadEnabled : Bool
  fetchInFlight : Bool
  downloadInFlight : Bool
  statusText : String
  progressText : String
deriving DecidableEq, Repr

/-- The events the controller reacts to: user edits and clicks (a click on a
disabled button is never delivered by Qt), the one-shot completion signals
of the two worker threads (only meaningful while the corresponding thread
runs), progress signals, and the environment removing the chosen folder. -/
inductive UiEvent where
  | editUrl (s : String)
  | chooseFolder (dir : String)
  | dirRemoved
  | setRadioVideo (b : Bool)
  | selectVideoRow (n : Nat)
  | selectAudioRow (n : Nat)
  | fetchClicked
  | fetchSucceeded (info : VideoInfoResult)
  | fetchFailed (msg : String)
  | downloadClicked
  | downloadProgress (msg : String)
  | downloadFinished (msg : String)
  | downloadFailed (msg : String)
deriving DecidableEq, Repr

/-- The externally visible effects of one handler invocation. -/
inductive UiOut where
  | warn (msg : String)
  | critical (msg : String)
  | information (msg : String)
  | logMsg (msg : String)
  | fetchStarted (url : String)
  | downloadStarted (url : String) (opts : YdlOpts)
  | crashed
deriving DecidableEq, Repr

/-- One handler invocation of the controller. `fetchClicked` is
`fetch_video_info`, `downloadClicked` is `start_download`,
`fetchSucceeded`/`fetchFailed` are `on_video_info_received`/
`on_video_info_error`, and the three download events are the
`DownloadThread` signal handlers. `crashed` marks the `IndexError` Python
would raise if a selected row exceeded the stored list (unreachable through
the UI, where rows and lists change together). -/
def step (s : GuiState) (e : UiEvent) : GuiState × List UiOut :=
  match e with
  | .editUrl t => ({ s with urlText := t }, [])
  | .chooseFolder dir => ({ s with saveText := dir, dirExists := true }, [])
  | .dirRemoved => ({ s with dirExists := false }, [])
  | .setRadioVideo b => ({ s with radioVideo := b }, [])
  | .selectVideoRow n =>
      (if n < s.video_formats.length then { s with videoRow := (n : Int) } else s, [])
  | .selectAudioRow n =>
      (if n < s.audio_formats.length then { s with audioRow := (n : Int) } else s, [])
  | .fetchClicked =>
      if s.fetchEnabled = false then (s, []) else
      if pyStrip s.urlText = "" then (s, [.warn "Please enter a YouTube URL"])
      else if validate_url (pyStrip s.urlText) = false then
        (s, [.warn "Please enter a valid YouTube URL"])
      else
        ({ s with
            fetchEnabled := false
            statusText := "Fetching video information..."
            progressText := "Working..."
            video_formats := []
            audio_formats := []
            videoRow := -1
            audioRow := -1
            fetchInFlight := true },
          [.fetchStarted (pyStrip s.urlText)])
  | .fetchSucceeded info =>
      if s.fetchInFlight = false then (s, []) else
      ({ s with
          fetchEnabled := true
          statusText := "Video info fetched"
          progressText := "Ready"
          video_formats := info.video_formats
          audio_formats := info.audio_formats
          videoRow := if 0 < info.video_formats.length then 0 else s.videoRow
          audioRow := if 0 < info.audio_formats.length then 0 else s.audioRow
          downloadEnabled := true
          fetchInFlight := false },
        [.logMsg ("Title: " ++ info.title), .logMsg ("Duration: " ++ info.duration)])
  | .fetchFailed m =>
      if s.fetchInFlight = false then (s, []) else
      ({ s with
          fetchEnabled := true
          statusText := "Error"
          progressText := ""
          fetchInFlight := false },
        [.logMsg ("ERROR: " ++ m), .critical m])
  | .downloadClicked =>
      if s.downloadEnabled = false then (s, []) else
      if pyStrip s.urlText = "" then (s, [.warn "Please enter a YouTube URL"])
      else if pyStrip s.saveText = "" ∨ s.dirExists = false then
        (s, [.warn "Please select a valid save location"])
      else if s.radioVideo then
        if s.videoRow < 0 then (s, [.warn "Please select a video quality"])
        else if s.audioRow < 0 then (s, [.warn "Please select an audio quality"])
        else
          match s.video_formats.get? s.videoRow.toNat, s.audio_formats.get? s.audioRow.toNat with
          | some ve, some ae =>
              ({ s with
                  downloadEnabled := false
                  fetchEnabled := false
                  statusText := "Downloading..."
                  progressText := "Starting download..."
                  downloadInFlight := true },
                [.downloadStarted (pyStrip s.urlText)
                  (build_ydl_opts (pyStrip s.saveText) (.muxed ve.format_id ae.format_id))])
          | _, _ => (s, [.crashed])
      else
        if s.audioRow < 0 then (s, [.warn "Please select an audio quality"])
        else
          match s.audio_formats.get? s.audioRow.toNat with
          | some ae =>
              ({ s with
                  downloadEnabled := false
                  fetchEnabled := false
                  statusText := "Downloading..."
                  progressText := "Starting download..."
                  downloadInFlight := true },
                [.downloadStarted (pyStrip s.urlText)
                  (build_ydl_opts (pyStrip s.saveText) (.audioOnly ae.format_id))])
          | none => (s, [.crashed])
  | .downloadProgress m =>
      if s.downloadInFlight = false then (s, []) else
      ({ s with progressText := m }, [.logMsg m])
  | .downloadFinished m =>
      if s.downloadInFlight = false then (s, []) else
      ({ s with
          downloadEnabled := true
          fetchEnabled := true
          statusText := "Download completed"
          progressText := "Done"
          downloadInFlight := false },
        [.logMsg m, .information m])
  | .downloadFailed m =>
      if s.downloadInFlight = false then (s, []) else
      ({ s with
          downloadEnabled := true
          fetchEnabled := true
          statusText := "Download failed"
          progressText := "Failed"
          downloadInFlight := false },
        [.logMsg ("ERROR: " ++ m), .critical m])

/-- The state after `__init__`: empty URL, the default save folder (a
placeholder for `Path.home() / "Downloads"`, assumed to exist; no property
depends on its text), empty lists with no selection, video radio checked,
both buttons enabled (nothing disables the download button at startup), no
thread running. -/
def initState : GuiState :=
  { urlText := ""
    saveText := "~/Downloads"
    dirExists := true
    video_formats := []
    audio_formats := []
    videoRow := -1
    audioRow := -1
    radioVideo := true
    fetchEnabled := true
    downloadEnabled := true
    fetchInFlight := false
    downloadInFlight := false
    statusText := "Ready"
    progressText := "" }

/-- Run a list of events. -/
def stepList (s : GuiState) (es : List UiEvent) : GuiState :=
  es.foldl (fun t e => (step t e).1) s

/-- The states the controller can actually be in. -/
inductive Reachable : GuiState → Prop where
  | init : Reachable initState
  | next (s : GuiState) (e : UiEvent) : Reachable s → Reachable (step s e).1

/-- The session invariant: while a download runs both buttons are disabled
(so no further request can be issued), while a fetch runs the cleared
lists have no selection, and the two background operations are never in
flight together. -/
def StateInv (s : GuiState) : Prop :=
  (s.downloadInFlight = true → s.downloadEnabled = false ∧ s.fetchEnabled = false)
  ∧ (s.fetchInFlight = true →
      s.videoRow = -1 ∧ s.audioRow = -1 ∧ s.video_formats = [] ∧ s.audio_formats = [])
  ∧ ¬(s.fetchInFlight = true ∧ s.downloadInFlight = true)

/-! ### Specification-side label recipes and concrete test data -/

/-- Modelled from the spec: the claimed label recipe for a video entry,
amended only in that the size suffix requires a nonzero known size (the
code omits it for a known size of 0 bytes). -/
def spec_video_label (h : Nat) (fr : ℚ) (e : String) (size : Option Nat) : String :=
  toString h ++ "p" ++ (if 30 < fr then pyNum fr else "") ++ " (" ++ e ++ ")"
    ++ (match size with
        | some n => if n ≠ 0 then " (~" ++ toString (n / (1024 * 1024)) ++ "MB)" else ""
        | none => "")

/-- Modelled from the spec: the claimed label recipe for an audio entry,
amended in that the bitrate is truncated toward zero (Python `int`) rather
than rounded, and the size suffix requires a nonzero known size. -/
def spec_audio_label (b : ℚ) (e : String) (size : Option Nat) : String :=
  toString (pyTrunc b) ++ "kbps (" ++ e ++ ")"
    ++ (match size with
        | some n => if n ≠ 0 then " (~" ++ toString (n / (1024 * 1024)) ++ "MB)" else ""
        | none => "")

/-- The spec scenario's combined descriptor. -/
def fmt720 : RawFormat :=
  { format_id := "22", vcodec := some "avc1", acodec := some "aac", height := some 720,
    fps := some 30, ext := some "mp4" }

/-- The spec scenario's audio-only descriptor. -/
def fmtMp3 : RawFormat :=
  { format_id := "140", vcodec := some "none", acodec := some "mp3", abr := some 128,
    ext := some "mp3" }

/-- An audio-only descriptor with the non-integral bitrate 3/2 kbps. -/
def fmtAbrHalf : RawFormat :=
  { format_id := "251", vcodec := some "none", acodec := some "opus",
    abr := some ⟨3, 2, by decide, by decide⟩, ext := some "webm" }

/-- A combined descriptor whose byte size is known and equal to zero. -/
def fmtSizeZero : RawFormat :=
  { format_id := "18", vcodec := some "avc1", acodec := some "aac", height := some 720,
    ext := some "mp4", filesize := some 0 }

/-- A combined descriptor whose `vcodec` key is absent. -/
def fmtNoVcodec : RawFormat :=
  { format_id := "96", acodec := some "aac", height := some 360, ext := some "mp4" }

/-- A descriptor lacking a height (skipped by the video branch). -/
def fmtNoHeight : RawFormat :=
  { format_id := "sb0", vcodec := some "avc1", acodec := some "aac", ext := some "mp4" }

/-- An audio-only descriptor lacking a bitrate (skipped by the audio branch). -/
def fmtNoAbr : RawFormat :=
  { format_id := "sb1", vcodec := some "none", acodec := some "aac", ext := some "m4a" }

/-- A reachable state with a resolve in flight: enter a valid URL and click
Fetch Info. -/
def c8_state : GuiState :=
  (step (step initState (.editUrl "https://youtu.be/a")).1 .fetchClicked).1

/-- A resolver result with one video and one audio rendition. -/
def c9_info : VideoInfoResult :=
  { title := "T"
    duration := "2:05"
    video_formats := [⟨"720p (mp4)", "137",
      { format_id := "137", vcodec := some "avc1", acodec := some "aac", height := some 720,
        ext := some "mp4" }⟩]
    audio_formats := [⟨"128kbps (m4a)", "140",
      { format_id := "140", vcodec := some "none", acodec := some "aac", abr := some 128,
        ext := some "m4a" }⟩] }

/-- A reachable resolved state from which a download can be accepted. -/
def c9_state : GuiState :=
  (step c8_state (.fetchSucceeded c9_info)).1

/-! ### Lemmas about the classification loop -/

theorem formatStep_eq (acc : List Entry × List Entry) (f : RawFormat) :
    formatStep acc f = (acc.1 ++ (video_entry f).toList, acc.2 ++ (audio_entry f).toList) := by
  unfold formatStep video_entry audio_entry
  split_ifs <;> simp

theorem foldl_formatStep (fs : List RawFormat) (acc : List Entry × List Entry) :
    fs.foldl formatStep acc
      = (acc.1 ++ fs.filterMap video_entry, acc.2 ++ fs.filterMap audio_entry) := by
  induction fs generalizing acc with
  | nil => simp
  | cons f fs ih =>
    rw [List.foldl_cons, ih, formatStep_eq]
    cases hv : video_entry f <;> cases ha : audio_entry f <;>
      simp [List.filterMap_cons, hv, ha]

theorem collectFormats_eq (fs : List RawFormat) :
    collectFormats fs = (fs.filterMap video_entry, fs.filterMap audio_entry) := by
  simpa using foldl_formatStep fs ([], [])

theorem video_entry_some (f : RawFormat)
    (h1 : f.vcodec ≠ some "none") (h2 : f.acodec ≠ some "none") (h3 : f.height.getD 0 ≠ 0) :
    video_entry f = some ⟨videoLabel f, f.format_id, f⟩ := by
  unfold video_entry
  rw [if_pos ⟨h1, h2⟩, if_pos h3]

theorem video_entry_none_height (f : RawFormat) (h3 : f.height.getD 0 = 0) :
    video_entry f = none := by
  unfold video_entry
  split_ifs with h a
  · exact absurd h3 a
  · rfl
  · rfl

theorem video_entry_none_vcodec (f : RawFormat) (h : f.vcodec = some "none") :
    video_entry f = none := by
  unfold video_entry
  rw [if_neg (fun hc => hc.1 h)]

theorem audio_entry_some (f : RawFormat)
    (h1 : f.acodec ≠ some "none") (h2 : f.vcodec = some "none") (h3 : f.abr.getD 0 ≠ 0) :
    audio_entry f = some ⟨audioLabel f, f.format_id, f⟩ := by
  unfold audio_entry
  rw [if_neg (fun hc => hc.1 h2), if_pos ⟨h1, h2⟩, if_pos h3]

theorem audio_entry_none_vcond (f : RawFormat)
    (h1 : f.vcodec ≠ some "none") (h2 : f.acodec ≠ some "none") :
    audio_entry f = none := by
  unfold audio_entry
  rw [if_pos ⟨h1, h2⟩]

theorem audio_entry_none_abr (f : RawFormat) (h3 : f.abr.getD 0 = 0) :
    audio_entry f = none := by
  unfold audio_entry
  split_ifs with h h' h''
  · rfl
  · exact absurd h3 h''
  · rfl
  · rfl

theorem video_entry_fmt {f : RawFormat} {e : Entry} (h : video_entry f = some e) :
    e.fmt = f := by
  unfold video_entry at h
  split_ifs at h
  all_goals first
  | exact Option.noConfusion h
  | (injection h with h'; rw [← h'])

theorem audio_entry_fmt {f : RawFormat} {e : Entry} (h : audio_entry f = some e) :
    e.fmt = f := by
  unfold audio_entry at h
  split_ifs at h
  all_goals first
  | exact Option.noConfusion h
  | (injection h with h'; rw [← h'])

theorem countP_fmt_of_some (g : RawFormat → Option Entry)
    (hg : ∀ x e, g x = some e → e.fmt = x) (f : RawFormat) (e₀ : Entry)
    (hf : g f = some e₀) (fs : List RawFormat) :
    (fs.filterMap g).countP (fun e => decide (e.fmt = f)) = fs.count f := by
  induction fs with
  | nil => simp
  | cons x xs ih =>
    by_cases hxf : x = f
    · subst hxf
      rw [List.filterMap_cons_some hf, List.countP_cons, List.count_cons, ih]
      simp [hg x e₀ hf]
    · cases hgx : g x with
      | none =>
        rw [List.filterMap_cons_none hgx, List.count_cons, ih]
        simp [hxf]
      | some e =>
        rw [List.filterMap_cons_some hgx, List.countP_cons, List.count_cons, ih]
        have hex : e.fmt = x := hg x e hgx
        simp [hex, hxf]

theorem countP_fmt_of_none (g : RawFormat → Option Entry)
    (hg : ∀ x e, g x = some e → e.fmt = x) (f : RawFormat)
    (hf : g f = none) (fs : List RawFormat) :
    (fs.filterMap g).countP (fun e => decide (e.fmt = f)) = 0 := by
  rw [List.countP_eq_zero]
  intro e he
  rw [List.mem_filterMap] at he
  obtain ⟨x, _, hgx⟩ := he
  have hex : e.fmt = x := hg x e hgx
  simp only [decide_eq_true_eq, hex]
  intro hxf
  subst hxf
  rw [hf] at hgx
  cases hgx

/-! ### Lemmas about the stable descending sort -/

theorem keyLe_trans (key : Entry → ℚ) :
    ∀ a b c : Entry, decide (key b ≤ key a) = true → decide (key c ≤ key b) = true →
      decide (key c ≤ key a) = true := by
  intro a b c hab hbc
  simp only [decide_eq_true_eq] at *
  exact le_trans hbc hab

theorem keyLe_total (key : Entry → ℚ) :
    ∀ a b : Entry, (decide (key b ≤ key a) || decide (key a ≤ key b)) = true := by
  intro a b
  simp only [Bool.or_eq_true, decide_eq_true_eq]
  exact le_total (key b) (key a)

theorem pySortDesc_perm (key : Entry → ℚ) (l : List Entry) :
    (pySortDesc key l).Perm l :=
  List.mergeSort_perm l _

theorem pySortDesc_pairwise (key : Entry → ℚ) (l : List Entry) :
    (pySortDesc key l).Pairwise (fun a b => key b ≤ key a) := by
  have h := List.sorted_mergeSort (keyLe_trans key) (keyLe_total key) l
  exact h.imp (fun h' => of_decide_eq_true h')

theorem pySortDesc_filter (key : Entry → ℚ) (k : ℚ) (l : List Entry) :
    (pySortDesc key l).filter (fun e => decide (key e = k))
      = l.filter (fun e => decide (key e = k)) := by
  have hperm : ((pySortDesc key l).filter (fun e => decide (key e = k))).Perm
      (l.filter (fun e => decide (key e = k))) :=
    (pySortDesc_perm key l).filter _
  have hpair : (l.filter (fun e => decide (key e = k))).Pairwise
      (fun a b => decide (key b ≤ key a) = true) := by
    apply List.pairwise_of_forall_mem_list
    intro a ha b hb
    have hak : key a = k := of_decide_eq_true (List.mem_filter.mp ha).2
    have hbk : key b = k := of_decide_eq_true (List.mem_filter.mp hb).2
    simp [hak, hbk]
  have hsub : (l.filter (fun e => decide (key e = k))).Sublist (pySortDesc key l) :=
    List.sublist_mergeSort (keyLe_trans key) (keyLe_total key) hpair (List.filter_sublist l)
  have hsub2 : (l.filter (fun e => decide (key e = k))).Sublist
      ((pySortDesc key l).filter (fun e => decide (key e = k))) := by
    have h' := hsub.filter (fun e => decide (key e = k))
    rwa [List.filter_eq_self.mpr (fun a ha => (List.mem_filter.mp ha).2)] at h'
  exact (hsub2.eq_of_length hperm.length_eq.symm).symm

theorem pySortDesc_singleton (key : Entry → ℚ) (e : Entry) :
    pySortDesc key [e] = [e] :=
  List.mergeSort_of_sorted (by simp)

theorem processInfo_video_countP (info : RawInfo) (p : Entry → Bool) :
    (processInfo info).video_formats.countP p
      = (info.formats.filterMap video_entry).countP p := by
  unfold processInfo
  rw [(pySortDesc_perm videoKey (collectFormats info.formats).1).countP_eq, collectFormats_eq]

theorem processInfo_audio_countP (info : RawInfo) (p : Entry → Bool) :
    (processInfo info).audio_formats.countP p
      = (info.formats.filterMap audio_entry).countP p := by
  unfold processInfo
  rw [(pySortDesc_perm audioKey (collectFormats info.formats).2).countP_eq, collectFormats_eq]

/-! ### Lemmas about the controller state machine -/

theorem stateInv_init : StateInv initState := by
  simp [StateInv, initState]

theorem stateInv_step (s : GuiState) (e : UiEvent) (h : StateInv s) :
    StateInv (step s e).1 := by
  obtain ⟨h1, h2, h3⟩ := h
  cases e with
  | editUrl t => exact ⟨h1, h2, h3⟩
  | chooseFolder d => exact ⟨h1, h2, h3⟩
  | dirRemoved => exact ⟨h1, h2, h3⟩
  | setRadioVideo b => exact ⟨h1, h2, h3⟩
  | selectVideoRow n =>
    simp only [step]
    split_ifs with hn
    · refine ⟨h1, fun hf => ?_, h3⟩
      rw [(h2 hf).2.2.1] at hn
      simp at hn
    · exact ⟨h1, h2, h3⟩
  | selectAudioRow n =>
    simp only [step]
    split_ifs with hn
    · refine ⟨h1, fun hf => ?_, h3⟩
      rw [(h2 hf).2.2.2] at hn
      simp at hn
    · exact ⟨h1, h2, h3⟩
  | fetchClicked =>
    simp only [step]
    split_ifs with he hu hv
    · exact ⟨h1, h2, h3⟩
    · exact ⟨h1, h2, h3⟩
    · exact ⟨h1, h2, h3⟩
    · exact ⟨fun hd => absurd (h1 hd).2 he, fun _ => ⟨rfl, rfl, rfl, rfl⟩,
        fun hc => he (h1 hc.2).2⟩
  | fetchSucceeded info =>
    simp only [step]
    split_ifs with hf
    all_goals first
    | exact ⟨h1, h2, h3⟩
    | (simp only [Bool.not_eq_false] at hf
       have hdl : s.downloadInFlight = false := by
         cases hd : s.downloadInFlight
         · rfl
         · exact absurd ⟨hf, hd⟩ h3
       exact ⟨fun hd => absurd hd (by simp [hdl]), fun hf2 => Bool.noConfusion hf2,
         fun hc => Bool.noConfusion hc.1⟩)
  | fetchFailed m =>
    simp only [step]
    split_ifs with hf
    · exact ⟨h1, h2, h3⟩
    · simp only [Bool.not_eq_false] at hf
      have hdl : s.downloadInFlight = false := by
        cases hd : s.downloadInFlight
        · rfl
        · exact absurd ⟨hf, hd⟩ h3
      exact ⟨fun hd => absurd hd (by simp [hdl]), fun hf2 => Bool.noConfusion hf2,
        fun hc => Bool.noConfusion hc.1⟩
  | downloadClicked =>
    simp only [step]
    split_ifs with hd hu hs0 hr hv ha hA
    · exact ⟨h1, h2, h3⟩
    · exact ⟨h1, h2, h3⟩
    · exact ⟨h1, h2, h3⟩
    · exact ⟨h1, h2, h3⟩
    · exact ⟨h1, h2, h3⟩
    · -- video mode, both rows selected
      split
      · refine ⟨fun _ => ⟨rfl, rfl⟩, fun hf => h2 hf, fun hc => ?_⟩
        have := (h2 hc.1).2.1
        omega
      · exact ⟨h1, h2, h3⟩
    · exact ⟨h1, h2, h3⟩
    · -- audio mode, row selected
      split
      · refine ⟨fun _ => ⟨rfl, rfl⟩, fun hf => h2 hf, fun hc => ?_⟩
        have := (h2 hc.1).2.1
        omega
      · exact ⟨h1, h2, h3⟩
  | downloadProgress m =>
    simp only [step]
    split_ifs
    · exact ⟨h1, h2, h3⟩
    · exact ⟨h1, h2, h3⟩
  | downloadFinished m =>
    simp only [step]
    split_ifs with hd
    · exact ⟨h1, h2, h3⟩
    · exact ⟨fun hd2 => Bool.noConfusion hd2, fun hf => h2 hf,
        fun hc => Bool.noConfusion hc.2⟩
  | downloadFailed m =>
    simp only [step]
    split_ifs with hd
    · exact ⟨h1, h2, h3⟩
    · exact ⟨fun hd2 => Bool.noConfusion hd2, fun hf => h2 hf,
        fun hc => Bool.noConfusion hc.2⟩

theorem reachable_inv {s : GuiState} (h : Reachable s) : StateInv s := by
  induction h with
  | init => exact stateInv_init
  | next s e _ ih => exact stateInv_step s e ih

/-- Everything `start_download` can do: ignore the click (only possible when
the button is disabled), reject with exactly one warning leaving the state
unchanged, crash on an out-of-range row, or disable the buttons and start
the download thread. -/
theorem downloadClicked_shape (s : GuiState) :
    step s .downloadClicked = (s, [])
    ∨ (∃ m, step s .downloadClicked = (s, [.warn m]))
    ∨ step s .downloadClicked = (s, [.crashed])
    ∨ (∃ u o, step s .downloadClicked =
        ({ s with
            downloadEnabled := false
            fetchEnabled := false
            statusText := "Downloading..."
            progressText := "Starting download..."
            downloadInFlight := true }, [.downloadStarted u o])) := by
  simp only [step]
  split_ifs <;> try (first | exact Or.inl rfl | exact Or.inr (Or.inl ⟨_, rfl⟩))
  all_goals split
  all_goals first
  | exact Or.inr (Or.inr (Or.inl rfl))
  | exact Or.inr (Or.inr (Or.inr ⟨_, _, rfl⟩))

/-- A progress signal changes only the progress label. -/
theorem step_progress_fields (s : GuiState) (t : String) :
    (step s (.downloadProgress t)).1.video_formats = s.video_formats
    ∧ (step s (.downloadProgress t)).1.audio_formats = s.audio_formats
    ∧ (step s (.downloadProgress t)).1.downloadInFlight = s.downloadInFlight
    ∧ (step s (.downloadProgress t)).1.downloadEnabled = s.downloadEnabled
    ∧ (step s (.downloadProgress t)).1.fetchEnabled = s.fetchEnabled := by
  simp only [step]
  split_ifs <;> simp

/-- A run of progress signals changes neither the stored format lists nor
the thread and button flags. -/
theorem stepList_progress {msgs : List UiEvent}
    (h : ∀ e ∈ msgs, ∃ t, e = UiEvent.downloadProgress t) (s : GuiState) :
    (stepList s msgs).video_formats = s.video_formats
    ∧ (stepList s msgs).audio_formats = s.audio_formats
    ∧ (stepList s msgs).downloadInFlight = s.downloadInFlight := by
  induction msgs generalizing s with
  | nil => simp [stepList]
  | cons e es ih =>
    obtain ⟨t, rfl⟩ := h e (by simp)
    have hrest : ∀ e ∈ es, ∃ t, e = UiEvent.downloadProgress t :=
      fun e he => h e (by simp [he])
    have hstep := step_progress_fields s t
    have htail := ih hrest (step s (.downloadProgress t)).1
    simp only [stepList, List.foldl_cons] at htail ⊢
    exact ⟨htail.1.trans hstep.1, htail.2.1.trans hstep.2.1, htail.2.2.trans hstep.2.2.1⟩

/-- The failure handler: with a download in flight it re-enables the
buttons and clears the in-flight flag, touching nothing else. -/
theorem step_downloadFailed (s : GuiState) (m : String) (h : s.downloadInFlight = true) :
    (step s (.downloadFailed m)).1
      = { s with
          downloadEnabled := true
          fetchEnabled := true
          statusText := "Download failed"
          progressText := "Failed"
          downloadInFlight := false } := by
  simp only [step]
  rw [if_neg (by simp [h])]

theorem sizeSuffix_eq (o : Option Nat) :
    sizeSuffix o
      = (match o with
          | some n => if n ≠ 0 then " (~" ++ toString (n / (1024 * 1024)) ++ "MB)" else ""
          | none => "") := by
  cases o <;> simp [sizeSuffix]

theorem fps_cond_iff (q : ℚ) : (q ≠ 0 ∧ 30 < q) ↔ 30 < q :=
  ⟨And.right, fun h => ⟨fun h0 => by rw [h0] at h; norm_num at h, h⟩⟩

/-! ### The claims -/

/-- C1: for a descriptor whose two codec indicators both denote a present
codec (neither equal to the string "none") and whose height is positive,
each occurrence in the probe result contributes exactly one entry to the
video list and none to the audio list; for a descriptor with a present
sound codec, image codec equal to "none", and positive bitrate, each
occurrence contributes exactly one entry to the audio list and none to the
video list. -/
theorem classified_exactly_once (info : RawInfo) (f : RawFormat) :
    ((f.vcodec ≠ some "none" → f.acodec ≠ some "none" → 0 < f.height.getD 0 →
      (processInfo info).video_formats.countP (fun e => decide (e.fmt = f))
          = info.formats.count f
        ∧ (processInfo info).audio_formats.countP (fun e => decide (e.fmt = f)) = 0))
    ∧ ((f.acodec ≠ some "none" → f.vcodec = some "none" → 0 < f.abr.getD 0 →
      (processInfo info).audio_formats.countP (fun e => decide (e.fmt = f))
          = info.formats.count f
        ∧ (processInfo info).video_formats.countP (fun e => decide (e.fmt = f)) = 0)) := by
  constructor
  · intro h1 h2 h3
    have h3' : f.height.getD 0 ≠ 0 := Nat.pos_iff_ne_zero.mp h3
    constructor
    · rw [processInfo_video_countP]
      exact countP_fmt_of_some video_entry (fun x e h => video_entry_fmt h) f _
        (video_entry_some f h1 h2 h3') info.formats
    · rw [processInfo_audio_countP]
      exact countP_fmt_of_none audio_entry (fun x e h => audio_entry_fmt h) f
        (audio_entry_none_vcond f h1 h2) info.formats
  · intro h1 h2 h3
    have h3' : f.abr.getD 0 ≠ 0 := ne_of_gt h3
    constructor
    · rw [processInfo_audio_countP]
      exact countP_fmt_of_some audio_entry (fun x e h => audio_entry_fmt h) f _
        (audio_entry_some f h1 h2 h3') info.formats
    · rw [processInfo_video_countP]
      exact countP_fmt_of_none video_entry (fun x e h => video_entry_fmt h) f
        (video_entry_none_vcodec f h2) info.formats

/-- C1 witness: one-descriptor probe results of each kind. -/
theorem classified_exactly_once_witness :
    ((processInfo ⟨some "T", some 10, [fmt720]⟩).video_formats.countP
        (fun e => decide (e.fmt = fmt720)) = ([fmt720] : List RawFormat).count fmt720
      ∧ (processInfo ⟨some "T", some 10, [fmt720]⟩).audio_formats.countP
        (fun e => decide (e.fmt = fmt720)) = 0)
    ∧ ((processInfo ⟨some "T", some 10, [fmtMp3]⟩).audio_formats.countP
        (fun e => decide (e.fmt = fmtMp3)) = ([fmtMp3] : List RawFormat).count fmtMp3
      ∧ (processInfo ⟨some "T", some 10, [fmtMp3]⟩).video_formats.countP
        (fun e => decide (e.fmt = fmtMp3)) = 0) :=
  ⟨(classified_exactly_once ⟨some "T", some 10, [fmt720]⟩ fmt720).1
      (by decide) (by decide) (by decide),
    (classified_exactly_once ⟨some "T", some 10, [fmtMp3]⟩ fmtMp3).2
      (by decide) (by decide) (by decide)⟩

/-- C2: the video list is sorted by height descending and the audio list by
bitrate descending, and for every key value the entries carrying that key
appear in exactly the order in which the probe result produced them (the
sort is stable, with no secondary key). -/
theorem formats_sorted_stable (info : RawInfo) (k : ℚ) :
    (processInfo info).video_formats.Pairwise (fun a b => videoKey b ≤ videoKey a)
    ∧ (processInfo info).audio_formats.Pairwise (fun a b => audioKey b ≤ audioKey a)
    ∧ (processInfo info).video_formats.filter (fun e => decide (videoKey e = k))
        = (info.formats.filterMap video_entry).filter (fun e => decide (videoKey e = k))
    ∧ (processInfo info).audio_formats.filter (fun e => decide (audioKey e = k))
        = (info.formats.filterMap audio_entry).filter (fun e => decide (audioKey e = k)) := by
  refine ⟨pySortDesc_pairwise _ _, pySortDesc_pairwise _ _, ?_, ?_⟩
  · show (pySortDesc videoKey (collectFormats info.formats).1).filter _ = _
    rw [pySortDesc_filter, collectFormats_eq]
  · show (pySortDesc audioKey (collectFormats info.formats).2).filter _ = _
    rw [pySortDesc_filter, collectFormats_eq]

/-- C3 counterexample: the code truncates the bitrate where the claim says
`round`, and omits the size suffix for a known size of zero bytes where the
claim says the suffix appears whenever the size is known. With bitrate 3/2
the produced label is "1kbps (webm)" while round(3/2) = 2 makes the claimed
label "2kbps (webm)"; with a known `filesize` of 0 the produced label is
"720p (mp4)", without the claimed " (~0MB)" suffix. -/
theorem format_label_counterexample :
    ((processInfo ⟨some "T", some 10, [fmtAbrHalf]⟩).audio_formats.map Entry.label
        = ["1kbps (webm)"]
      ∧ pyRound (fmtAbrHalf.abr.getD 0) = 2
      ∧ toString (pyRound (fmtAbrHalf.abr.getD 0)) ++ "kbps ("
          ++ fmtAbrHalf.ext.getD "unknown" ++ ")" ++ sizeSuffix fmtAbrHalf.filesize
          = "2kbps (webm)"
      ∧ ("1kbps (webm)" : String) ≠ "2kbps (webm)")
    ∧ ((processInfo ⟨some "T", some 10, [fmtSizeZero]⟩).video_formats.map Entry.label
        = ["720p (mp4)"]
      ∧ fmtSizeZero.filesize = some 0
      ∧ ("720p (mp4)" : String) ≠ "720p (mp4) (~0MB)") := by
  constructor
  · refine ⟨?_, by decide, by decide, by decide⟩
    have hc : collectFormats [fmtAbrHalf] = ([], [⟨"1kbps (webm)", "251", fmtAbrHalf⟩]) := by
      decide
    simp only [processInfo, hc, pySortDesc_singleton]
    decide
  · refine ⟨?_, by decide, by decide⟩
    have hc : collectFormats [fmtSizeZero] = ([⟨"720p (mp4)", "18", fmtSizeZero⟩], []) := by
      decide
    simp only [processInfo, hc, pySortDesc_singleton]
    decide

/-- C3 (amended): the video label is "<h>p" plus "<f>" exactly when the
frame rate exceeds 30, plus " (<e>)", plus the size suffix exactly when the
size is known and nonzero; the audio label is "<int(b)>kbps (<e>)" with the
bitrate truncated toward zero, plus the same size suffix; descriptors
lacking a height (video branch) or a bitrate (audio branch) are skipped;
and the two-descriptor spec scenario yields the labels "720p (mp4)" and
"128kbps (mp3)". -/
theorem format_labels_spec :
    (∀ f : RawFormat,
      videoLabel f
        = spec_video_label (f.height.getD 0) (f.fps.getD 0) (f.ext.getD "unknown") f.filesize)
    ∧ (∀ f : RawFormat,
      audioLabel f = spec_audio_label (f.abr.getD 0) (f.ext.getD "unknown") f.filesize)
    ∧ (∀ (info : RawInfo) (f : RawFormat), f.height.getD 0 = 0 →
      (processInfo info).video_formats.countP (fun e => decide (e.fmt = f)) = 0)
    ∧ (∀ (info : RawInfo) (f : RawFormat), f.abr.getD 0 = 0 →
      (processInfo info).audio_formats.countP (fun e => decide (e.fmt = f)) = 0)
    ∧ (processInfo ⟨some "T", some 300, [fmt720, fmtMp3]⟩).video_formats.map Entry.label
        = ["720p (mp4)"]
    ∧ (processInfo ⟨some "T", some 300, [fmt720, fmtMp3]⟩).audio_formats.map Entry.label
        = ["128kbps (mp3)"] := by
  have hscn : collectFormats [fmt720, fmtMp3]
      = ([⟨"720p (mp4)", "22", fmt720⟩], [⟨"128kbps (mp3)", "140", fmtMp3⟩]) := by decide
  refine ⟨?_, ?_, ?_, ?_, ?_, ?_⟩
  · intro f
    unfold videoLabel spec_video_label
    rw [sizeSuffix_eq]
    simp only [fps_cond_iff]
  · intro f
    unfold audioLabel spec_audio_label
    rw [sizeSuffix_eq]
  · intro info f hf
    rw [processInfo_video_countP]
    exact countP_fmt_of_none video_entry (fun x e h => video_entry_fmt h) f
      (video_entry_none_height f hf) info.formats
  · intro info f hf
    rw [processInfo_audio_countP]
    exact countP_fmt_of_none audio_entry (fun x e h => audio_entry_fmt h) f
      (audio_entry_none_abr f hf) info.formats
  · simp only [processInfo, hscn, pySortDesc_singleton]
    decide
  · simp only [processInfo, hscn, pySortDesc_singleton]
    decide

/-- C3 witness: the label recipes evaluated on the scenario descriptors and
the skip clauses evaluated on descriptors lacking a height or a bitrate. -/
theorem format_labels_spec_witness :
    videoLabel fmt720
        = spec_video_label (fmt720.height.getD 0) (fmt720.fps.getD 0)
            (fmt720.ext.getD "unknown") fmt720.filesize
    ∧ audioLabel fmtMp3
        = spec_audio_label (fmtMp3.abr.getD 0) (fmtMp3.ext.getD "unknown") fmtMp3.filesize
    ∧ (processInfo ⟨none, none, [fmtNoHeight]⟩).video_formats.countP
        (fun e => decide (e.fmt = fmtNoHeight)) = 0
    ∧ (processInfo ⟨none, none, [fmtNoAbr]⟩).audio_formats.countP
        (fun e => decide (e.fmt = fmtNoAbr)) = 0 :=
  ⟨format_labels_spec.1 fmt720, format_labels_spec.2.1 fmtMp3,
    format_labels_spec.2.2.1 ⟨none, none, [fmtNoHeight]⟩ fmtNoHeight (by decide),
    format_labels_spec.2.2.2.1 ⟨none, none, [fmtNoAbr]⟩ fmtNoAbr (by decide)⟩

/-- C4: the duration label is "<minutes>:<seconds, two digits zero-padded>"
for a known nonzero duration and "Unknown" when the duration is absent or
zero; duration 125 yields "2:05". -/
theorem duration_label_spec :
    (∀ info : RawInfo, (processInfo info).duration = duration_label info.duration)
    ∧ (∀ n : Nat, 0 < n →
        duration_label (some n) = toString (n / 60) ++ ":" ++ pad2 (n % 60)
          ∧ (pad2 (n % 60)).length = 2)
    ∧ duration_label none = "Unknown"
    ∧ duration_label (some 0) = "Unknown"
    ∧ duration_label (some 125) = "2:05" := by
  refine ⟨fun info => rfl, fun n hn => ⟨?_, ?_⟩, by decide, by decide, by decide⟩
  · simp [duration_label, Nat.pos_iff_ne_zero.mp hn]
  · have h60 : n % 60 < 60 := Nat.mod_lt _ (by norm_num)
    have hall : ∀ m : Nat, m < 60 → (pad2 m).length = 2 := by decide
    exact hall _ h60

/-- C4 witness: duration 125 evaluated. -/
theorem duration_label_spec_witness :
    0 < 125
    ∧ duration_label (some 125) = toString (125 / 60) ++ ":" ++ pad2 (125 % 60)
    ∧ (pad2 (125 % 60)).length = 2 :=
  ⟨by decide, (duration_label_spec.2.1 125 (by decide)).1,
    (duration_label_spec.2.1 125 (by decide)).2⟩

/-- C5: the muxed mode produces the expression "<v>+<a>/best" with merge
container "mp4" and no post-processors; the audio-only mode produces the
audio id verbatim with exactly one FFmpegExtractAudio post-processor
targeting mp3 at quality "192" and no merge container. -/
theorem download_options_spec (v a sp : String) :
    (build_ydl_opts sp (.muxed v a)).format = v ++ "+" ++ a ++ "/best"
    ∧ (build_ydl_opts sp (.muxed v a)).merge_output_format = some "mp4"
    ∧ (build_ydl_opts sp (.muxed v a)).postprocessors = []
    ∧ (build_ydl_opts sp (.audioOnly a)).format = a
    ∧ (build_ydl_opts sp (.audioOnly a)).merge_output_format = none
    ∧ (build_ydl_opts sp (.audioOnly a)).postprocessors = [⟨"FFmpegExtractAudio", "mp3", "192"⟩]
    ∧ (build_ydl_opts sp (.muxed "137" "140")).format = "137+140/best" :=
  ⟨rfl, rfl, rfl, rfl, rfl, rfl, rfl⟩

/-- C6: a "downloading" callback emits exactly one progress event embedding
the collaborator's percent and speed strings verbatim; a "finished"
callback emits exactly one event carrying only the base name of the
reported file path. -/
theorem progress_hook_spec (p sp : String) (ps ss : Option String) (fn : String) :
    progress_hook ⟨"downloading", some p, some sp, fn⟩
        = ["Downloading... " ++ p ++ " at " ++ sp]
    ∧ progress_hook ⟨"finished", ps, ss, fn⟩ = ["Download finished: " ++ basename fn]
    ∧ basename "/tmp/downloads/video.mp4" = "video.mp4" := by
  refine ⟨?_, ?_, by decide⟩
  · simp [progress_hook]
  · simp [progress_hook]

/-- C7: a normal return emits exactly one Success with the fixed message
and no Failure; a fault emits exactly one Failure prefixed "Download
failed: " and no Success; every outcome emits exactly one terminal
signal. -/
theorem download_terminal_spec :
    (∀ u : Unit, download_run (.ok u) = (["Download completed successfully!"], []))
    ∧ (∀ e : String, download_run (.error e) = ([], ["Download failed: " ++ e]))
    ∧ (∀ r : Except String Unit,
        (download_run r).1.length + (download_run r).2.length = 1) := by
  refine ⟨fun u => rfl, fun e => rfl, fun r => ?_⟩
  cases r <;> rfl

/-- C8: in every reachable state with a resolve or download in flight, a
download request cannot be issued while a download runs (the control is
disabled), and any request that can be issued (control enabled, hence
during a resolve) is rejected synchronously with exactly one validation
warning, starting no thread and leaving the state unchanged. -/
theorem download_rejected_while_busy (s : GuiState) (hr : Reachable s)
    (hbusy : s.fetchInFlight = true ∨ s.downloadInFlight = true) :
    (s.downloadInFlight = true → s.downloadEnabled = false ∧ s.fetchEnabled = false)
    ∧ (s.downloadEnabled = true → ∃ m, step s .downloadClicked = (s, [.warn m])) := by
  obtain ⟨h1, h2, h3⟩ := reachable_inv hr
  refine ⟨h1, fun hen => ?_⟩
  have hfi : s.fetchInFlight = true := by
    rcases hbusy with hf | hd
    · exact hf
    · rw [(h1 hd).1] at hen
      exact Bool.noConfusion hen
  obtain ⟨hvr, har, _, _⟩ := h2 hfi
  simp only [step]
  rw [if_neg (by simp [hen])]
  by_cases hu : pyStrip s.urlText = ""
  · rw [if_pos hu]
    exact ⟨_, rfl⟩
  · rw [if_neg hu]
    by_cases hs0 : pyStrip s.saveText = "" ∨ s.dirExists = false
    · rw [if_pos hs0]
      exact ⟨_, rfl⟩
    · rw [if_neg hs0]
      by_cases hrv : s.radioVideo = true
      · rw [if_pos hrv, if_pos (by rw [hvr]; decide)]
        exact ⟨_, rfl⟩
      · rw [if_neg hrv, if_pos (by rw [har]; decide)]
        exact ⟨_, rfl⟩

/-- C8 witness: a download click in the concrete resolving state is
rejected with one warning and no state change. -/
theorem download_rejected_while_busy_witness :
    ∃ m, step c8_state .downloadClicked = (c8_state, [.warn m]) :=
  (download_rejected_while_busy c8_state
      (Reachable.next _ _ (Reachable.next _ _ Reachable.init))
      (Or.inl (by decide))).2 (by decide)

/-- C9: a download episode that was accepted, relayed any number of
progress signals and then failed leaves the stored video and audio format
lists exactly as they were before the download started, and returns the
session to the resolved configuration (no download in flight, both request
buttons enabled again). -/
theorem download_failure_retains_formats (s : GuiState) (url : String) (opts : YdlOpts)
    (msgs : List UiEvent) (m : String)
    (hstart : (step s .downloadClicked).2 = [.downloadStarted url opts])
    (hmsgs : ∀ e ∈ msgs, ∃ t, e = UiEvent.downloadProgress t) :
    (step (stepList (step s .downloadClicked).1 msgs) (.downloadFailed m)).1.video_formats
        = s.video_formats
    ∧ (step (stepList (step s .downloadClicked).1 msgs) (.downloadFailed m)).1.audio_formats
        = s.audio_formats
    ∧ (step (stepList (step s .downloadClicked).1 msgs) (.downloadFailed m)).1.downloadInFlight
        = false
    ∧ (step (stepList (step s .downloadClicked).1 msgs) (.downloadFailed m)).1.downloadEnabled
        = true
    ∧ (step (stepList (step s .downloadClicked).1 msgs) (.downloadFailed m)).1.fetchEnabled
        = true := by
  rcases downloadClicked_shape s with h | ⟨m', h⟩ | h | ⟨u', o', h⟩
  · rw [h] at hstart
    simp at hstart
  · rw [h] at hstart
    simp at hstart
  · rw [h] at hstart
    simp at hstart
  · have hs1 : (step s .downloadClicked).1
        = { s with
            downloadEnabled := false
            fetchEnabled := false
            statusText := "Downloading..."
            progressText := "Starting download..."
            downloadInFlight := true } := by rw [h]
    obtain ⟨hv, ha, hd⟩ := stepList_progress hmsgs ((step s .downloadClicked).1)
    have hfin : (stepList (step s .downloadClicked).1 msgs).downloadInFlight = true := by
      rw [hd, hs1]
    rw [step_downloadFailed _ m hfin]
    refine ⟨?_, ?_, rfl, rfl, rfl⟩
    · show (stepList (step s .downloadClicked).1 msgs).video_formats = s.video_formats
      rw [hv, hs1]
    · show (stepList (step s .downloadClicked).1 msgs).audio_formats = s.audio_formats
      rw [ha, hs1]

/-- C9 witness: a concrete accepted download that fails after one progress
signal retains the resolved format lists and re-enables the controls. -/
theorem download_failure_retains_formats_witness :
    (step (stepList (step c9_state .downloadClicked).1 [.downloadProgress "p"])
        (.downloadFailed "boom")).1.video_formats = c9_state.video_formats
    ∧ (step (stepList (step c9_state .downloadClicked).1 [.downloadProgress "p"])
        (.downloadFailed "boom")).1.audio_formats = c9_state.audio_formats
    ∧ (step (stepList (step c9_state .downloadClicked).1 [.downloadProgress "p"])
        (.downloadFailed "boom")).1.downloadInFlight = false
    ∧ (step (stepList (step c9_state .downloadClicked).1 [.downloadProgress "p"])
        (.downloadFailed "boom")).1.downloadEnabled = true
    ∧ (step (stepList (step c9_state .downloadClicked).1 [.downloadProgress "p"])
        (.downloadFailed "boom")).1.fetchEnabled = true :=
  download_failure_retains_formats c9_state "https://youtu.be/a"
    (build_ydl_opts "~/Downloads" (.muxed "137" "140"))
    [.downloadProgress "p"] "boom" (by decide)
    (by
      intro e he
      rw [List.mem_singleton] at he
      subst he
      exact ⟨"p", rfl⟩)

/-- C10: a descriptor whose `vcodec` key is entirely absent is treated as
having a present image codec: with a present sound codec and positive
height it is classified as a video entry, contributing exactly one entry
per occurrence to the video list and none to the audio list. -/
theorem missing_vcodec_is_video (info : RawInfo) (f : RawFormat)
    (hv : f.vcodec = none) (ha : f.acodec ≠ some "none") (hh : 0 < f.height.getD 0) :
    video_entry f = some ⟨videoLabel f, f.format_id, f⟩
    ∧ (processInfo info).video_formats.countP (fun e => decide (e.fmt = f))
        = info.formats.count f
    ∧ (processInfo info).audio_formats.countP (fun e => decide (e.fmt = f)) = 0 := by
  have hv' : f.vcodec ≠ some "none" := by
    rw [hv]
    exact fun h => Option.noConfusion h
  have hh' : f.height.getD 0 ≠ 0 := Nat.pos_iff_ne_zero.mp hh
  refine ⟨video_entry_some f hv' ha hh', ?_, ?_⟩
  · rw [processInfo_video_countP]
    exact countP_fmt_of_some video_entry (fun x e h => video_entry_fmt h) f _
      (video_entry_some f hv' ha hh') info.formats
  · rw [processInfo_audio_countP]
    exact countP_fmt_of_none audio_entry (fun x e h => audio_entry_fmt h) f
      (audio_entry_none_vcond f hv' ha) info.formats

/-- C10 witness: a descriptor with no `vcodec` key, `acodec` "aac" and
height 360 lands in the video list. -/
theorem missing_vcodec_is_video_witness :
    video_entry fmtNoVcodec = some ⟨videoLabel fmtNoVcodec, fmtNoVcodec.format_id, fmtNoVcodec⟩
    ∧ (processInfo ⟨none, none, [fmtNoVcodec]⟩).video_formats.countP
        (fun e => decide (e.fmt = fmtNoVcodec)) = ([fmtNoVcodec] : List RawFormat).count fmtNoVcodec
    ∧ (processInfo ⟨none, none, [fmtNoVcodec]⟩).audio_formats.countP
        (fun e => decide (e.fmt = fmtNoVcodec)) = 0 :=
  missing_vcodec_is_video ⟨none, none, [fmtNoVcodec]⟩ fmtNoVcodec
    (by decide) (by decide) (by decide)

end YoutubeDown

